import Mathlib

/-!
Shallow embedding of the thermal-stress index engine of `scripts/utils.py`
(functions `categorize_utci`, `categorize_heat_index`, `calculate_indices`).

Modelling conventions:
* Python floats are modelled as exact rationals plus a NaN value
  (`PyFloat`); float rounding and infinities are outside the model.
  All comparisons with NaN are false, as in IEEE / Python.
* A pandas cell that may be absent is `Option PyFloat`; `pd.isna` is true
  on both `none` (Python `None`) and `some .nan`.
* The external thermal-comfort library (`pythermalcomfort.models.utci`,
  `pythermalcomfort.models.heat_index`) and the fractional float power
  operator `**` (whose exact value is irrational and which can raise
  `OverflowError`) are abstracted as the fields of a `Thermo` structure;
  each returns `Except Unit _`, where `.error ()` models a raised Python
  exception.  The model functions may return NaN, as the real library
  does for out-of-range inputs.
* The `try/except` wrapper of `calculate_indices` is the outer match in
  `calculate_indices` below: any `.error` from the body becomes the
  all-"N/A" row.
-/

namespace WhWeather

/-- A Python float value: either NaN or an exact (rational) number. -/
inductive PyFloat where
  | nan : PyFloat
  | val : ℚ → PyFloat
deriving DecidableEq

/-- Python `<` on floats: false whenever either side is NaN. -/
def pyLt : PyFloat → PyFloat → Bool
  | .val x, .val y => x < y
  | _, _ => false

/-- Python `<=` on floats: false whenever either side is NaN. -/
def pyLe : PyFloat → PyFloat → Bool
  | .val x, .val y => x ≤ y
  | _, _ => false

/-- Python `>=` on floats: false whenever either side is NaN. -/
def pyGe : PyFloat → PyFloat → Bool
  | .val x, .val y => y ≤ x
  | _, _ => false

/-- `pd.isna` on a possibly-absent cell: true on `None` and on NaN. -/
def pyIsna : Option PyFloat → Bool
  | none => true
  | some .nan => true
  | some (.val _) => false

/-- One input row, with the four columns `calculate_indices` reads:
`'Air Temperature (°C)'`, `'Relative Humidity (%)'`, `'Wind Speed (m/s)'`,
`'Solar Radiation (W/m²)'`.  `row.get(key, None)` on a missing column is
`none`. -/
structure Row where
  airTemp : Option PyFloat
  relHumidity : Option PyFloat
  windSpeed : Option PyFloat
  solarRad : Option PyFloat

/-- A cell of the output series: a float or a string sentinel. -/
inductive Cell where
  | num : PyFloat → Cell
  | str : String → Cell
deriving DecidableEq

/-- The output series of `calculate_indices`, with keys
`'UTCI'`, `'Heat Index'`, `'UTCI Stress'`, `'Heat Index Stress'`. -/
structure IndexResult where
  utci : Cell
  heatIndex : Cell
  utciStress : Cell
  heatIndexStress : Cell
deriving DecidableEq

/-- The all-unavailable row returned on missing data and on any caught error. -/
def naResult : IndexResult :=
  { utci := .str "N/A", heatIndex := .str "N/A",
    utciStress := .str "N/A", heatIndexStress := .str "N/A" }

/-- The external collaborators of the engine: the fractional float power
operator `**` and the two numerical models of `pythermalcomfort`. -/
structure Thermo where
  pow : ℚ → ℚ → Except Unit ℚ
  utci : ℚ → ℚ → ℚ → ℚ → Except Unit PyFloat
  heat_index : ℚ → ℚ → Except Unit PyFloat

/-- `categorize_utci` of `scripts/utils.py` (lines 341–362): the if/elif
chain over the UTCI value, whose trailing branch returns "N/A". -/
def categorize_utci (utci_value : PyFloat) : String :=
  if pyLt utci_value (.val 26) then "No heat stress"
  else if pyLe (.val 26) utci_value && pyLt utci_value (.val 32) then "Moderate heat stress"
  else if pyLe (.val 32) utci_value && pyLt utci_value (.val 38) then "Strong heat stress"
  else if pyLe (.val 38) utci_value && pyLt utci_value (.val 46) then "Very strong heat stress"
  else if pyGe utci_value (.val 46) then "Extreme heat stress"
  else "N/A"

/-- `categorize_heat_index` of `scripts/utils.py` (lines 365–386). -/
def categorize_heat_index (hi_value : PyFloat) : String :=
  if pyLt hi_value (.val 26.7) then "No heat stress"
  else if pyLe (.val 26.7) hi_value && pyLt hi_value (.val 32.2) then "Caution"
  else if pyLe (.val 32.2) hi_value && pyLt hi_value (.val 39.4) then "Extreme Caution"
  else if pyLe (.val 39.4) hi_value && pyLt hi_value (.val 51.1) then "Danger"
  else if pyGe hi_value (.val 51.1) then "Extreme Danger"
  else "N/A"

/-- The success row: indices paired with their categories
(lines 443–448 of `scripts/utils.py`). -/
def successResult (utci_value hi_value : PyFloat) : IndexResult :=
  { utci := .num utci_value, heatIndex := .num hi_value,
    utciStress := .str (categorize_utci utci_value),
    heatIndexStress := .str (categorize_heat_index hi_value) }

/-- Lines 403–404: `if v_2m is not None and v_2m < 0.4: v_2m = 0.4`.
NaN compares false, so NaN wind is left unchanged. -/
def clampWind : Option PyFloat → Option PyFloat
  | some (.val v) => some (.val (if v < 0.4 then 0.4 else v))
  | w => w

/-- Line 408: `pd.isna(tdb) or pd.isna(rh) or pd.isna(v_2m)`, where `v_2m`
has already been clamped. -/
def missingEssential (row : Row) : Bool :=
  pyIsna row.airTemp || pyIsna row.relHumidity || pyIsna (clampWind row.windSpeed)

/-- Line 420: `z_measured = 2`. -/
def z_measured : ℚ := 2

/-- Line 421: `z_target = 10`. -/
def z_target : ℚ := 10

/-- Line 422: `alpha = 0.14`. -/
def alpha : ℚ := 0.14

/-- Line 423: `v_10m = v_2m * (z_target / z_measured) ** alpha`. -/
def wind10m (th : Thermo) (v_2m : ℚ) : Except Unit ℚ := do
  let p ← th.pow (z_target / z_measured) alpha
  pure (v_2m * p)

/-- Line 428: Stefan–Boltzmann constant `sigma = 5.67e-8`. -/
def sigma : ℚ := 5.67e-8

/-- Line 429: absorptivity for skin `a = 0.7`. -/
def absorptivity : ℚ := 0.7

/-- Line 430: view factor for outdoor exposure `f = 0.5`. -/
def viewFactor : ℚ := 0.5

/-- Lines 431–433: mean radiant temperature,
`tr = ((tdb + 273.15) ** 4 + solar_radiation * a * f / sigma) ** 0.25 - 273.15`. -/
def meanRadiantTemp (th : Thermo) (tdb solar_radiation : ℚ) : Except Unit ℚ := do
  let tdb_k := tdb + 273.15
  let tr_k ← th.pow (tdb_k ^ 4 + solar_radiation * absorptivity * viewFactor / sigma) 0.25
  pure (tr_k - 273.15)

/-- Lines 426–427: `if pd.isna(solar_radiation): solar_radiation = 0`. -/
def solarOrZero : Option PyFloat → ℚ
  | some (.val s) => s
  | _ => 0

/-- The body of the `try:` block of `calculate_indices`
(lines 398–448 of `scripts/utils.py`); `.error ()` is a raised exception. -/
def tryCalc (th : Thermo) (row : Row) : Except Unit IndexResult :=
  if missingEssential row then
    pure naResult
  else
    match row.airTemp, row.relHumidity, clampWind row.windSpeed with
    | some (.val tdb), some (.val rh), some (.val v_2m) => do
      let rhFrac := rh / 100
      let v_10m ← wind10m th v_2m
      let tr ← meanRadiantTemp th tdb (solarOrZero row.solarRad)
      let utci_value ← th.utci tdb tr v_10m rhFrac
      let hi_value ← th.heat_index tdb rhFrac
      pure (successResult utci_value hi_value)
    | _, _, _ => pure naResult

/-- `calculate_indices` of `scripts/utils.py` (lines 388–456): the body,
with every raised exception caught and turned into the all-"N/A" row. -/
def calculate_indices (th : Thermo) (row : Row) : IndexResult :=
  match tryCalc th row with
  | .ok res => res
  | .error _ => naResult

/-- A row in which all four columns hold plain numbers. -/
def fullRow (t r v s : ℚ) : Row :=
  { airTemp := some (.val t), relHumidity := some (.val r),
    windSpeed := some (.val v), solarRad := some (.val s) }

/-- The five strings the UTCI categorizer can return on a number. -/
def utciCategories : List String :=
  ["No heat stress", "Moderate heat stress", "Strong heat stress",
   "Very strong heat stress", "Extreme heat stress"]

/-- The five strings the Heat-Index categorizer can return on a number. -/
def heatIndexCategories : List String :=
  ["No heat stress", "Caution", "Extreme Caution", "Danger", "Extreme Danger"]

lemma pyLt_val (x y : ℚ) : pyLt (.val x) (.val y) = decide (x < y) := rfl

lemma pyLe_val (x y : ℚ) : pyLe (.val x) (.val y) = decide (x ≤ y) := rfl

lemma pyGe_val (x y : ℚ) : pyGe (.val x) (.val y) = decide (y ≤ x) := rfl

lemma exceptBind_ok {α β : Type} (x : α) (g : α → Except Unit β) :
    (Except.ok x >>= g) = g x := rfl

lemma exceptBind_error {α β : Type} (e : Unit) (g : α → Except Unit β) :
    ((Except.error e : Except Unit α) >>= g) = Except.error e := rfl

lemma categorize_utci_val_mem (x : ℚ) :
    categorize_utci (.val x) ∈ utciCategories := by
  unfold categorize_utci
  simp only [pyLt_val, pyLe_val, pyGe_val, Bool.and_eq_true, decide_eq_true_eq]
  split_ifs with h1 h2 h3 h4 h5
  · simp [utciCategories]
  · simp [utciCategories]
  · simp [utciCategories]
  · simp [utciCategories]
  · simp [utciCategories]
  · exfalso
    rw [not_lt] at h1
    push_neg at h2 h3 h4
    exact h5 (h4 (h3 (h2 h1)))

lemma categorize_heat_index_val_mem (x : ℚ) :
    categorize_heat_index (.val x) ∈ heatIndexCategories := by
  unfold categorize_heat_index
  simp only [pyLt_val, pyLe_val, pyGe_val, Bool.and_eq_true, decide_eq_true_eq]
  split_ifs with h1 h2 h3 h4 h5
  · simp [heatIndexCategories]
  · simp [heatIndexCategories]
  · simp [heatIndexCategories]
  · simp [heatIndexCategories]
  · simp [heatIndexCategories]
  · exfalso
    rw [not_lt] at h1
    push_neg at h2 h3 h4
    exact h5 (h4 (h3 (h2 h1)))

lemma categorize_utci_eq_na (u : PyFloat) : categorize_utci u = "N/A" ↔ u = .nan := by
  cases u with
  | nan => simp [categorize_utci, pyLt, pyLe, pyGe]
  | val x =>
    constructor
    · intro hna
      have hmem := categorize_utci_val_mem x
      rw [hna] at hmem
      simp [utciCategories] at hmem
    · intro h
      exact absurd h (by simp)

lemma categorize_heat_index_eq_na (u : PyFloat) :
    categorize_heat_index u = "N/A" ↔ u = .nan := by
  cases u with
  | nan => simp [categorize_heat_index, pyLt, pyLe, pyGe]
  | val x =>
    constructor
    · intro hna
      have hmem := categorize_heat_index_val_mem x
      rw [hna] at hmem
      simp [heatIndexCategories] at hmem
    · intro h
      exact absurd h (by simp)

lemma tryCalc_fullRow (th : Thermo) (t r v s : ℚ) :
    tryCalc th (fullRow t r v s) =
      (do
        let v_10m ← wind10m th (if v < 0.4 then 0.4 else v)
        let tr ← meanRadiantTemp th t s
        let utci_value ← th.utci t tr v_10m (r / 100)
        let hi_value ← th.heat_index t (r / 100)
        pure (successResult utci_value hi_value) : Except Unit IndexResult) := rfl

lemma exceptPure {α : Type} (x : α) : (pure x : Except Unit α) = .ok x := rfl

lemma calculate_indices_shape (th : Thermo) (row : Row) :
    calculate_indices th row = naResult ∨
      ∃ u hv, calculate_indices th row = successResult u hv ∧
        (∃ w x y z, th.utci w x y z = .ok u) ∧
        (∃ w x, th.heat_index w x = .ok hv) := by
  rcases row with ⟨ta, ra, wa, sa⟩
  rcases ta with _ | (_ | t)
  · left; rfl
  · left; rfl
  · rcases ra with _ | (_ | r)
    · left; rfl
    · left; rfl
    · rcases wa with _ | (_ | v)
      · left; rfl
      · left; rfl
      · have heq : tryCalc th ⟨some (.val t), some (.val r), some (.val v), sa⟩ =
            (do
              let v10 ← wind10m th (if v < 0.4 then 0.4 else v)
              let tr ← meanRadiantTemp th t (solarOrZero sa)
              let u ← th.utci t tr v10 (r / 100)
              let hv ← th.heat_index t (r / 100)
              pure (successResult u hv) : Except Unit IndexResult) := rfl
        rcases hw : wind10m th (if v < 0.4 then 0.4 else v) with e | v10
        · left
          simp [calculate_indices, heq, hw, exceptBind_error]
        · rcases hmrt : meanRadiantTemp th t (solarOrZero sa) with e | tr
          · left
            simp [calculate_indices, heq, hw, hmrt, exceptBind_ok, exceptBind_error]
          · rcases hu : th.utci t tr v10 (r / 100) with e | u
            · left
              simp [calculate_indices, heq, hw, hmrt, hu, exceptBind_ok, exceptBind_error]
            · rcases hh : th.heat_index t (r / 100) with e | hv
              · left
                simp [calculate_indices, heq, hw, hmrt, hu, hh, exceptBind_ok,
                  exceptBind_error]
              · right
                refine ⟨u, hv, ?_, ⟨t, tr, v10, r / 100, hu⟩, ⟨t, r / 100, hh⟩⟩
                simp [calculate_indices, heq, hw, hmrt, hu, hh, exceptBind_ok, exceptPure]

/-- A row with every column missing. -/
def allNoneRow : Row := ⟨none, none, none, none⟩

/-- A concrete thermal library whose power operator and models always
succeed with constant values. -/
def constThermo : Thermo :=
  { pow := fun _ _ => .ok 1
    utci := fun _ _ _ _ => .ok (.val 30)
    heat_index := fun _ _ => .ok (.val 28) }

/-- A thermal library whose UTCI model returns NaN (as `pythermalcomfort`
does on out-of-range inputs) while everything else succeeds. -/
def nanUtciThermo : Thermo :=
  { pow := fun _ _ => .ok 1
    utci := fun _ _ _ _ => .ok .nan
    heat_index := fun _ _ => .ok (.val 28) }

lemma tryCalc_fullRow_ok (th : Thermo) (t r v s : ℚ) (res : IndexResult)
    (h : tryCalc th (fullRow t r v s) = .ok res) :
    ∃ u hv, res = successResult u hv := by
  rw [tryCalc_fullRow] at h
  rcases hw : wind10m th (if v < 0.4 then 0.4 else v) with e | v10 <;>
    rw [hw] at h
  · exact absurd h (by simp [exceptBind_error])
  simp only [exceptBind_ok] at h
  rcases hmrt : meanRadiantTemp th t s with e | tr <;> rw [hmrt] at h
  · exact absurd h (by simp [exceptBind_error])
  simp only [exceptBind_ok] at h
  rcases hu : th.utci t tr v10 (r / 100) with e | u <;> rw [hu] at h
  · exact absurd h (by simp [exceptBind_error])
  simp only [exceptBind_ok] at h
  rcases hh : th.heat_index t (r / 100) with e | hv <;> rw [hh] at h
  · exact absurd h (by simp [exceptBind_error])
  simp only [exceptBind_ok, exceptPure, Except.ok.injEq] at h
  exact ⟨u, hv, h.symm⟩

/-- C1: Totality of the engine: for every external library behaviour (whose
calls may raise) and every input row — including one with all fields absent,
negative humidity, negative wind speed, or NaN temperature —
`calculate_indices` returns an `IndexResult`: either the all-"N/A" row or a
fully populated success row; every failure path degrades to the
all-unavailable ("N/A") result. -/
theorem calculate_indices_total (th : Thermo) (row : Row) :
    calculate_indices th row = naResult ∨
      ∃ u hv, calculate_indices th row = successResult u hv := by
  rcases calculate_indices_shape th row with h | ⟨u, hv, he, _, _⟩
  · exact Or.inl h
  · exact Or.inr ⟨u, hv, he⟩

/-- C2: Missing-field short-circuit: if any of air temperature, relative
humidity, or wind speed is absent (`None`) or NaN, `calculate_indices`
returns the result with all four fields "N/A", for every such input and
every external library behaviour. -/
theorem calculate_indices_missing_essential (th : Thermo) (row : Row)
    (h : pyIsna row.airTemp = true ∨ pyIsna row.relHumidity = true ∨
      pyIsna row.windSpeed = true) :
    calculate_indices th row = naResult := by
  rcases row with ⟨ta, ra, wa, sa⟩
  have hm : missingEssential ⟨ta, ra, wa, sa⟩ = true := by
    rcases h with h | h | h
    · simp [missingEssential, h]
    · simp [missingEssential, h]
    · have hcw : pyIsna (clampWind wa) = true := by
        rcases wa with _ | (_ | v) <;> simp_all [pyIsna, clampWind]
      simp [missingEssential, hcw]
  simp [calculate_indices, tryCalc, hm, exceptPure]

/-- Witness for C2: a row with all columns absent yields the all-"N/A"
result. -/
theorem calculate_indices_missing_essential_witness :
    (pyIsna allNoneRow.airTemp = true ∨ pyIsna allNoneRow.relHumidity = true ∨
      pyIsna allNoneRow.windSpeed = true) ∧
    calculate_indices constThermo allNoneRow = naResult :=
  ⟨Or.inl rfl,
    calculate_indices_missing_essential constThermo allNoneRow (Or.inl rfl)⟩

/-- C3: Category boundary exactness: each tabulated threshold belongs to the
upper band — `categorize_utci 26 = "Moderate heat stress"`,
`categorize_utci 25.999 = "No heat stress"`,
`categorize_heat_index 51.1 = "Extreme Danger"`,
`categorize_heat_index 51.099 = "Danger"`, and likewise at the UTCI
thresholds 32, 38, 46 and the Heat-Index thresholds 26.7, 32.2, 39.4. -/
theorem categorize_boundary_exactness :
    categorize_utci (.val 26) = "Moderate heat stress" ∧
    categorize_utci (.val 25.999) = "No heat stress" ∧
    categorize_heat_index (.val 51.1) = "Extreme Danger" ∧
    categorize_heat_index (.val 51.099) = "Danger" ∧
    categorize_utci (.val 32) = "Strong heat stress" ∧
    categorize_utci (.val 38) = "Very strong heat stress" ∧
    categorize_utci (.val 46) = "Extreme heat stress" ∧
    categorize_heat_index (.val 26.7) = "Caution" ∧
    categorize_heat_index (.val 32.2) = "Extreme Caution" ∧
    categorize_heat_index (.val 39.4) = "Danger" := by
  refine ⟨?_, ?_, ?_, ?_, ?_, ?_, ?_, ?_, ?_, ?_⟩ <;>
    norm_num [categorize_utci, categorize_heat_index, pyLt_val, pyLe_val, pyGe_val]

/-- C6: Solar default: for every input row and every external library
behaviour, `calculate_indices` with the solar-radiation column absent
returns the identical result to `calculate_indices` with solar radiation 0;
moreover absence of solar radiation never makes the completeness gate fire. -/
theorem calculate_indices_solar_default (th : Thermo) (row : Row) :
    calculate_indices th { row with solarRad := none } =
      calculate_indices th { row with solarRad := some (.val 0) } ∧
    missingEssential { row with solarRad := none } = missingEssential row := by
  constructor
  · rfl
  · rfl

/-- C5: Wind-speed floor: for every wind speed strictly between 0 and
0.4 m/s, all other columns held constant, the result equals the result with
the wind speed set to exactly 0.4 m/s; the clamp happens before any further
use of the wind value. -/
theorem calculate_indices_wind_floor (th : Thermo) (row : Row) (v : ℚ)
    (h0 : 0 < v) (h4 : v < 0.4) :
    calculate_indices th { row with windSpeed := some (.val v) } =
      calculate_indices th { row with windSpeed := some (.val (0.4 : ℚ)) } := by
  have hc : clampWind (some (.val v)) = some (.val (0.4 : ℚ)) := by
    simp [clampWind, h4]
  have hc4 : clampWind (some (.val (0.4 : ℚ))) = some (.val (0.4 : ℚ)) := by
    simp [clampWind]
  rcases row with ⟨ta, ra, wa, sa⟩
  show calculate_indices th ⟨ta, ra, some (.val v), sa⟩ =
    calculate_indices th ⟨ta, ra, some (.val (0.4 : ℚ)), sa⟩
  unfold calculate_indices tryCalc missingEssential
  dsimp only
  rw [hc, hc4]

/-- Witness for C5: wind speed 0.2 m/s gives the same result as 0.4 m/s. -/
theorem calculate_indices_wind_floor_witness :
    ((0 : ℚ) < 0.2 ∧ (0.2 : ℚ) < 0.4) ∧
    calculate_indices constThermo
        { fullRow 30 50 2 0 with windSpeed := some (.val 0.2) } =
      calculate_indices constThermo
        { fullRow 30 50 2 0 with windSpeed := some (.val (0.4 : ℚ)) } :=
  ⟨⟨by norm_num, by norm_num⟩,
    calculate_indices_wind_floor constThermo (fullRow 30 50 2 0) 0.2
      (by norm_num) (by norm_num)⟩

/-- C7: Wind height transform: whenever the power operator yields `p` on
`(10/2, 0.14)`, the 10 m wind value computed (and then passed to the UTCI
model) is `v_2m * p` for the clamped 2 m value `v_2m`; in particular for
`v_2m = 2.0` it is `2 * p`, the height ratio is the constant 5, and the
exponent is the fixed constant 0.14. -/
theorem wind_height_transform (th : Thermo) (p : ℚ)
    (hp : th.pow (z_target / z_measured) alpha = .ok p) :
    (∀ v_2m : ℚ, wind10m th v_2m = .ok (v_2m * p)) ∧
    wind10m th 2 = .ok (2 * p) ∧
    z_target / z_measured = 5 ∧ alpha = 0.14 := by
  have hall : ∀ v_2m : ℚ, wind10m th v_2m = .ok (v_2m * p) := by
    intro v_2m
    unfold wind10m
    rw [hp]
    rfl
  exact ⟨hall, hall 2, by norm_num [z_target, z_measured], rfl⟩

/-- Witness for C7: a power operator returning 1 on `(5, 0.14)`. -/
theorem wind_height_transform_witness :
    constThermo.pow (z_target / z_measured) alpha = .ok 1 ∧
    ((∀ v_2m : ℚ, wind10m constThermo v_2m = .ok (v_2m * 1)) ∧
      wind10m constThermo 2 = .ok (2 * 1) ∧
      z_target / z_measured = 5 ∧ alpha = 0.14) :=
  ⟨rfl, wind_height_transform constThermo 1 rfl⟩

/-- C8: Model-input construction: when the power operator yields `p` on the
wind ratio and `k` on the radiant-balance term
`(t + 273.15)^4 + s * 0.7 * 0.5 / 5.67e-8` (constants `sigma = 5.67e-8`,
`a = 0.7`, `f = 0.5` exactly), the UTCI model is invoked with
`(t, k - 273.15, clamped_v * p, r / 100)` and the Heat-Index model with
`(t, r / 100)` — raw temperature and humidity unaltered by clamping or the
radiant-temperature step — and their successful outputs populate the
result. -/
theorem model_input_construction (th : Thermo) (t r v s p k : ℚ)
    (u hv : PyFloat)
    (hp : th.pow (z_target / z_measured) alpha = .ok p)
    (hk : th.pow ((t + 273.15) ^ 4 + s * 0.7 * 0.5 / 5.67e-8) 0.25 = .ok k)
    (hu : th.utci t (k - 273.15) ((if v < 0.4 then 0.4 else v) * p) (r / 100) = .ok u)
    (hh : th.heat_index t (r / 100) = .ok hv) :
    calculate_indices th (fullRow t r v s) = successResult u hv := by
  have hmrt : meanRadiantTemp th t s = .ok (k - 273.15) := by
    show (do
      let tr_k ← th.pow ((t + 273.15) ^ 4 + s * 0.7 * 0.5 / 5.67e-8) 0.25
      pure (tr_k - 273.15) : Except Unit ℚ) = .ok (k - 273.15)
    rw [hk]
    rfl
  have hw : wind10m th (if v < 0.4 then 0.4 else v) =
      .ok ((if v < 0.4 then 0.4 else v) * p) := by
    unfold wind10m
    rw [hp]
    rfl
  unfold calculate_indices
  rw [tryCalc_fullRow, hw]
  simp only [exceptBind_ok]
  rw [hmrt]
  simp only [exceptBind_ok]
  rw [hu]
  simp only [exceptBind_ok]
  rw [hh]
  simp only [exceptBind_ok]
  rfl

/-- Witness for C8: the constant library, at temperature 30 °C, humidity
50 %, wind 2 m/s, solar 0 W/m². -/
theorem model_input_construction_witness :
    constThermo.pow (z_target / z_measured) alpha = .ok 1 ∧
    constThermo.pow (((30 : ℚ) + 273.15) ^ 4 + 0 * 0.7 * 0.5 / 5.67e-8) 0.25 = .ok 1 ∧
    constThermo.utci 30 (1 - 273.15) ((if (2 : ℚ) < 0.4 then 0.4 else 2) * 1) (50 / 100) =
      .ok (.val 30) ∧
    constThermo.heat_index 30 (50 / 100) = .ok (.val 28) ∧
    calculate_indices constThermo (fullRow 30 50 2 0) =
      successResult (.val 30) (.val 28) :=
  ⟨rfl, rfl, rfl, rfl,
    model_input_construction constThermo 30 50 2 0 1 1 (.val 30) (.val 28)
      rfl rfl rfl rfl⟩

/-- C4 counterexample: with a library returning NaN for the UTCI value (as
the real one does out of range), the returned row holds a numeric NaN under
'UTCI' but "N/A" under 'UTCI Stress', so the claimed equivalence fails. -/
theorem pair_invariant_counterexample :
    ¬ (((calculate_indices nanUtciThermo (fullRow 60 40 3 800)).utci =
          Cell.str "N/A") ↔
       ((calculate_indices nanUtciThermo (fullRow 60 40 3 800)).utciStress =
          Cell.str "N/A")) := by
  have hres : calculate_indices nanUtciThermo (fullRow 60 40 3 800) =
      successResult .nan (.val 28) := rfl
  rw [hres]
  have hcat : categorize_utci .nan = "N/A" := rfl
  show ¬ (Cell.num .nan = Cell.str "N/A" ↔
    Cell.str (categorize_utci .nan) = Cell.str "N/A")
  rw [hcat]
  simp

/-- C4 (amended): provided the external models return non-NaN values on
every call, the 'UTCI' field is "N/A" iff the 'UTCI Stress' field is "N/A",
and likewise for the Heat-Index pair: each numeric/category pair is computed
or skipped together.  Without that proviso a NaN model output yields a NaN
index paired with an "N/A" stress category. -/
theorem pair_invariant_of_no_nan (th : Thermo) (row : Row)
    (hmu : ∀ w x y z u, th.utci w x y z = .ok u → u ≠ .nan)
    (hmh : ∀ w x u, th.heat_index w x = .ok u → u ≠ .nan) :
    (((calculate_indices th row).utci = Cell.str "N/A") ↔
      ((calculate_indices th row).utciStress = Cell.str "N/A")) ∧
    (((calculate_indices th row).heatIndex = Cell.str "N/A") ↔
      ((calculate_indices th row).heatIndexStress = Cell.str "N/A")) := by
  rcases calculate_indices_shape th row with h | ⟨u, hv, he, ⟨w, x, y, z, hup⟩, ⟨w2, x2, hhp⟩⟩
  · rw [h]
    exact ⟨by simp [naResult], by simp [naResult]⟩
  · rw [he]
    have hun : u ≠ .nan := hmu _ _ _ _ _ hup
    have hhn : hv ≠ .nan := hmh _ _ _ hhp
    have l1 : ¬ ((successResult u hv).utci = Cell.str "N/A") := by
      show ¬ (Cell.num u = Cell.str "N/A")
      simp
    have l2 : ¬ ((successResult u hv).utciStress = Cell.str "N/A") := by
      show ¬ (Cell.str (categorize_utci u) = Cell.str "N/A")
      simp only [Cell.str.injEq]
      exact fun hc => hun ((categorize_utci_eq_na u).mp hc)
    have m1 : ¬ ((successResult u hv).heatIndex = Cell.str "N/A") := by
      show ¬ (Cell.num hv = Cell.str "N/A")
      simp
    have m2 : ¬ ((successResult u hv).heatIndexStress = Cell.str "N/A") := by
      show ¬ (Cell.str (categorize_heat_index hv) = Cell.str "N/A")
      simp only [Cell.str.injEq]
      exact fun hc => hhn ((categorize_heat_index_eq_na hv).mp hc)
    exact ⟨iff_of_false l1 l2, iff_of_false m1 m2⟩

/-- Witness for the amended C4: the constant library never returns NaN, and
the pair equivalence holds on a fully populated row. -/
theorem pair_invariant_of_no_nan_witness :
    (∀ w x y z u, constThermo.utci w x y z = .ok u → u ≠ .nan) ∧
    (∀ w x u, constThermo.heat_index w x = .ok u → u ≠ .nan) ∧
    ((((calculate_indices constThermo (fullRow 30 50 2 0)).utci = Cell.str "N/A") ↔
      ((calculate_indices constThermo (fullRow 30 50 2 0)).utciStress = Cell.str "N/A")) ∧
     (((calculate_indices constThermo (fullRow 30 50 2 0)).heatIndex = Cell.str "N/A") ↔
      ((calculate_indices constThermo (fullRow 30 50 2 0)).heatIndexStress = Cell.str "N/A"))) :=
  ⟨fun w x y z u heq => by injection heq with h2; subst h2; simp,
   fun w x u heq => by injection heq with h2; subst h2; simp,
   pair_invariant_of_no_nan constThermo (fullRow 30 50 2 0)
     (fun w x y z u heq => by injection heq with h2; subst h2; simp)
     (fun w x u heq => by injection heq with h2; subst h2; simp)⟩

/-- C9: Category total coverage: on every rational input each categorizer
returns exactly one of its five categories; the trailing "N/A" branch is
reached exactly on NaN; and in a success row the stress cell is "N/A" iff
the paired index cell is a numeric NaN. -/
theorem categorize_total_coverage :
    (∀ x : ℚ, categorize_utci (.val x) ∈ utciCategories) ∧
    (∀ x : ℚ, categorize_heat_index (.val x) ∈ heatIndexCategories) ∧
    (∀ u : PyFloat, categorize_utci u = "N/A" ↔ u = .nan) ∧
    (∀ u : PyFloat, categorize_heat_index u = "N/A" ↔ u = .nan) ∧
    (∀ u hv : PyFloat,
      (successResult u hv).utciStress = Cell.str "N/A" ↔
        (successResult u hv).utci = Cell.num .nan) ∧
    (∀ u hv : PyFloat,
      (successResult u hv).heatIndexStress = Cell.str "N/A" ↔
        (successResult u hv).heatIndex = Cell.num .nan) := by
  refine ⟨categorize_utci_val_mem, categorize_heat_index_val_mem,
    categorize_utci_eq_na, categorize_heat_index_eq_na, ?_, ?_⟩
  · intro u hv
    show Cell.str (categorize_utci u) = Cell.str "N/A" ↔ Cell.num u = Cell.num .nan
    simp [categorize_utci_eq_na]
  · intro u hv
    show Cell.str (categorize_heat_index hv) = Cell.str "N/A" ↔
      Cell.num hv = Cell.num .nan
    simp [categorize_heat_index_eq_na]

/-- C10: No range validation at the gate: for every fully numeric row —
humidity of any value (for example −50 or 250), solar radiation of any sign —
the completeness gate does not fire, the body feeds the models with the raw
humidity divided by 100, and the result degrades to all-"N/A" exactly when
the body raises. -/
theorem gate_no_range_validation (th : Thermo) (t r v s : ℚ) :
    missingEssential (fullRow t r v s) = false ∧
    (tryCalc th (fullRow t r v s) =
      (do
        let v_10m ← wind10m th (if v < 0.4 then 0.4 else v)
        let tr ← meanRadiantTemp th t s
        let utci_value ← th.utci t tr v_10m (r / 100)
        let hi_value ← th.heat_index t (r / 100)
        pure (successResult utci_value hi_value) : Except Unit IndexResult)) ∧
    (calculate_indices th (fullRow t r v s) = naResult ↔
      tryCalc th (fullRow t r v s) = .error ()) := by
  refine ⟨rfl, tryCalc_fullRow th t r v s, ?_⟩
  rcases htc : tryCalc th (fullRow t r v s) with e | res
  · cases e
    simp [calculate_indices, htc]
  · obtain ⟨u, hv, hres⟩ := tryCalc_fullRow_ok th t r v s res htc
    have hcalc : calculate_indices th (fullRow t r v s) = res := by
      simp [calculate_indices, htc]
    rw [hcalc, hres]
    simp [successResult, naResult]

end WhWeather
